import Mathlib

/-!
Shallow embedding of the GoByte repository's manual array-format decoder
(src/example/utils.py, function load_npy_manual) together with proofs of the
specification's claims about it.

A byte stream is a `List Nat` (each entry one byte).  The Python routine is
translated stage by stage:

* `f.read(6)` / `magic[4]` / `magic[5]`  — the 6-byte prefix; accessing
  `magic[4]` or `magic[5]` on a shorter stream raises IndexError, modelled by
  the `malformedHeader` error when the stream holds fewer than 6 bytes.
* `int.from_bytes(f.read(w), 'little')` — `leNat` over the next `w` bytes
  (a short read simply yields fewer bytes, exactly as in Python).
* `header_bytes.decode('latin1', errors='ignore')` — latin1 maps every byte to
  the code point of the same value, so the decoded text is the byte list itself.
* `str.find` / `str.rfind` / slicing / `strip` — `pyFind`, `pyRfind`,
  drop/take with truncating subtraction, `pyStrip`.
* `ast.literal_eval` — `parseLit`, a fuel-based recursive-descent reader of the
  literal grammar the metadata uses (strings without escapes, signed decimal
  integers with Python's leading-zero rule, True/False/None, tuples, lists,
  dictionaries, with Python's parenthesisation and trailing-comma rules).
  Inputs outside this grammar are rejected, as literal_eval rejects
  non-literal text.
* `np.dtype(descr)` — a string descriptor goes through `parseDescr`, covering
  the byte-order/kind/width spellings (kinds u, i, f with the numpy-supported
  widths), other strings mapping to the `unsupportedDescriptor` error;
  a None descriptor is numpy's default float64; an integer or boolean
  descriptor raises TypeError (`malformedMetadata`); tuple, list and
  dictionary descriptors can denote structured or subarray dtypes that this
  model does not determine — they are marked with the `unmodelledDescriptor`
  abstention constructor, which no theorem reads as a program failure.
* `np.fromfile` — reading every byte from the computed payload offset and
  cutting it into whole elements; a trailing fragment shorter than one element
  is dropped, as fromfile drops it.
* `.reshape(shape)` — a size check of element count against the product of the
  dimensions; the ValueError numpy raises on a mismatch is modelled by the
  `truncatedPayload` error (the spec's name for this failure).  numpy's
  negative-dimension inference is not modelled: shapes must be non-negative
  integers, booleans, or tuples/lists of these, and the theorems below carry
  that restriction as an explicit hypothesis where it could matter.

Element values are reported as integers: unsigned kinds as the little- or
big-endian value of the element's bytes, signed kinds in two's complement, and
float kinds by their raw bit pattern (the numeric reading of float bits is out
of scope; the bit pattern determines the float, so equalities are unaffected).
-/

/-! ## Byte-level helpers -/

/-- Little-endian value of a byte list, as computed by int.from_bytes. -/
def leNat : List Nat → Nat
  | [] => 0
  | b :: r => b + 256 * leNat r

/-- Python str.find for a single character: index of the first occurrence. -/
def pyFind (c : Nat) : List Nat → Option Nat
  | [] => Option.none
  | b :: r => if b = c then Option.some 0 else (pyFind c r).map (· + 1)

/-- Python str.rfind for a single character: index of the last occurrence. -/
def pyRfind (c : Nat) (l : List Nat) : Option Nat :=
  (pyFind c l.reverse).map (fun i => l.length - 1 - i)

/-- Characters removed by Python str.strip() with no argument (the whitespace
code points that exist in the latin1 range). -/
def isStripSpace (c : Nat) : Bool :=
  c = 9 ∨ c = 10 ∨ c = 11 ∨ c = 12 ∨ c = 13 ∨ c = 28 ∨ c = 29 ∨ c = 30 ∨
  c = 31 ∨ c = 32 ∨ c = 133 ∨ c = 160

/-- Python str.strip(chars): remove matching characters from both ends. -/
def pyStrip (p : Nat → Bool) (l : List Nat) : List Nat :=
  ((l.dropWhile p).reverse.dropWhile p).reverse

/-! ## The literal grammar (ast.literal_eval) -/

/-- Values of the Python literal grammar the metadata dictionary uses. -/
inductive PyLit where
  | int (n : Int)
  | bool (b : Bool)
  | pynone
  | str (cs : List Nat)
  | tuple (xs : List PyLit)
  | list (xs : List PyLit)
  | dict (kvs : List (PyLit × PyLit))

/-- Token whitespace skipped between literal tokens. -/
def isTokSpace (c : Nat) : Bool :=
  c = 32 ∨ c = 9 ∨ c = 10 ∨ c = 12 ∨ c = 13

/-- Skip token whitespace. -/
def skipWS : List Nat → List Nat
  | [] => []
  | c :: r => if isTokSpace c then skipWS r else c :: r

/-- Decimal digit test. -/
def isDigit (c : Nat) : Bool := 48 ≤ c ∧ c ≤ 57

/-- Split off a maximal run of decimal digits. -/
def spanDigits : List Nat → (List Nat × List Nat)
  | [] => ([], [])
  | c :: r =>
    if isDigit c then
      let (ds, rest) := spanDigits r
      (c :: ds, rest)
    else ([], c :: r)

/-- Value of a digit run. -/
def digitsToNat (ds : List Nat) : Nat :=
  ds.foldl (fun a c => a * 10 + (c - 48)) 0

/-- Read the body of a quoted string up to the closing quote `q`.  Backslash
escapes, raw newlines and an unterminated quote are rejected (code 92 is the
backslash, 10 and 13 the newline characters). -/
def readStr (q : Nat) : List Nat → Option (List Nat × List Nat)
  | [] => Option.none
  | c :: r =>
    if c = q then Option.some ([], r)
    else if c = 92 ∨ c = 10 ∨ c = 13 then Option.none
    else (readStr q r).map (fun (cs, rest) => (c :: cs, rest))

/-- Does the input start with the given keyword characters? -/
def startsWith : List Nat → List Nat → Option (List Nat)
  | [], rest => Option.some rest
  | _, [] => Option.none
  | k :: ks, c :: r => if c = k then startsWith ks r else Option.none

/-- Python rejects a nonzero decimal integer literal written with a leading
zero (a SyntaxError); a run of zeros alone denotes zero and is accepted
(48 is the character zero). -/
def validIntToken (ds : List Nat) : Bool :=
  match ds with
  | [] => false
  | c :: rest => if c = 48 then rest.all (fun d => d = 48) else true

/-- The three tasks of the literal reader: one value, a bracketed item list,
or the entry list of a dictionary. -/
inductive PTask where
  | val
  | items (close : Nat)
  | entries

/-- The corresponding results, each with the unconsumed input: a value, an
item list together with a flag recording whether any comma was seen
(distinguishing a parenthesised value from a one-element tuple), or a
key/value list. -/
inductive POut where
  | val (v : PyLit) (rest : List Nat)
  | items (xs : List PyLit) (comma : Bool) (rest : List Nat)
  | entries (kvs : List (PyLit × PyLit)) (rest : List Nat)

/-- One recursive-descent reader for the whole literal grammar, structurally
recursive on a fuel argument so that it evaluates inside the kernel; the
top-level wrapper supplies enough fuel for any input.  Character codes used:
34 and 39 quotes, 40/41 parentheses, 44 comma, 45 minus, 58 colon,
91/93 square brackets, 123/125 braces. -/
def parseStep : Nat → PTask → List Nat → Option POut
  | 0, _, _ => Option.none
  | Nat.succ fuel, PTask.val, input =>
    match skipWS input with
    | [] => Option.none
    | c :: rest =>
      if c = 39 ∨ c = 34 then
        (readStr c rest).map (fun (cs, r) => POut.val (PyLit.str cs) r)
      else if isDigit c then
        let (ds, r) := spanDigits (c :: rest)
        if validIntToken ds then
          Option.some (POut.val (PyLit.int (Int.ofNat (digitsToNat ds))) r)
        else Option.none
      else if c = 45 then
        match skipWS rest with
        | d :: r2 =>
          if isDigit d then
            let (ds, r) := spanDigits (d :: r2)
            if validIntToken ds then
              Option.some (POut.val (PyLit.int (-(Int.ofNat (digitsToNat ds)))) r)
            else Option.none
          else Option.none
        | [] => Option.none
      else if c = 40 then
        -- a parenthesised single item without a comma is that item, not a tuple
        match parseStep fuel (PTask.items 41) rest with
        | Option.some (POut.items [x] false r) => Option.some (POut.val x r)
        | Option.some (POut.items xs _ r) => Option.some (POut.val (PyLit.tuple xs) r)
        | _ => Option.none
      else if c = 91 then
        match parseStep fuel (PTask.items 93) rest with
        | Option.some (POut.items xs _ r) => Option.some (POut.val (PyLit.list xs) r)
        | _ => Option.none
      else if c = 123 then
        match parseStep fuel PTask.entries rest with
        | Option.some (POut.entries kvs r) => Option.some (POut.val (PyLit.dict kvs) r)
        | _ => Option.none
      else
        match startsWith [84, 114, 117, 101] (c :: rest) with
        | Option.some r => Option.some (POut.val (PyLit.bool true) r)
        | Option.none =>
          match startsWith [70, 97, 108, 115, 101] (c :: rest) with
          | Option.some r => Option.some (POut.val (PyLit.bool false) r)
          | Option.none =>
            match startsWith [78, 111, 110, 101] (c :: rest) with
            | Option.some r => Option.some (POut.val PyLit.pynone r)
            | Option.none => Option.none
  | Nat.succ fuel, PTask.items close, input =>
    match skipWS input with
    | [] => Option.none
    | c :: rest =>
      if c = close then Option.some (POut.items [] false rest)
      else
        match parseStep fuel PTask.val (c :: rest) with
        | Option.some (POut.val x r) =>
          (match skipWS r with
           | [] => Option.none
           | d :: r2 =>
             if d = close then Option.some (POut.items [x] false r2)
             else if d = 44 then
               match parseStep fuel (PTask.items close) r2 with
               | Option.some (POut.items xs _ r3) =>
                 Option.some (POut.items (x :: xs) true r3)
               | _ => Option.none
             else Option.none)
        | _ => Option.none
  | Nat.succ fuel, PTask.entries, input =>
    match skipWS input with
    | [] => Option.none
    | c :: rest =>
      if c = 125 then Option.some (POut.entries [] rest)
      else
        match parseStep fuel PTask.val (c :: rest) with
        | Option.some (POut.val k r) =>
          (match skipWS r with
           | d :: r2 =>
             if d = 58 then
               match parseStep fuel PTask.val r2 with
               | Option.some (POut.val v r3) =>
                 (match skipWS r3 with
                  | e :: r4 =>
                    if e = 125 then Option.some (POut.entries [(k, v)] r4)
                    else if e = 44 then
                      match parseStep fuel PTask.entries r4 with
                      | Option.some (POut.entries kvs r5) =>
                        Option.some (POut.entries ((k, v) :: kvs) r5)
                      | _ => Option.none
                    else Option.none
                  | [] => Option.none)
               | _ => Option.none
             else Option.none
           | [] => Option.none)
        | _ => Option.none

/-- ast.literal_eval: parse the whole text as one literal; trailing content
other than whitespace is a syntax error. -/
def parseLit (cs : List Nat) : Option PyLit :=
  match parseStep (2 * cs.length + 2) PTask.val cs with
  | Option.some (POut.val v rest) =>
    (match skipWS rest with
     | [] => Option.some v
     | _ :: _ => Option.none)
  | _ => Option.none

/-- Python subscript `lit[key]` for a string key: a KeyError (key absent) and
a TypeError (not a dictionary) both become `Option.none`; on duplicate keys a
Python dict literal keeps the last binding. -/
def dictGetLast (key : List Nat) : List (PyLit × PyLit) → Option PyLit
  | [] => Option.none
  | (k, v) :: r =>
    match dictGetLast key r with
    | Option.some w => Option.some w
    | Option.none =>
      match k with
      | PyLit.str cs => if cs = key then Option.some v else Option.none
      | _ => Option.none

/-- Subscript access on an arbitrary literal. -/
def pySubscript (lit : PyLit) (key : List Nat) : Option PyLit :=
  match lit with
  | PyLit.dict kvs => dictGetLast key kvs
  | _ => Option.none

/-- The characters of the key descr. -/
def descrKey : List Nat := [100, 101, 115, 99, 114]

/-- The characters of the key shape. -/
def shapeKey : List Nat := [115, 104, 97, 112, 101]

/-! ## Element descriptors (np.dtype) -/

/-- An element type: the byte order actually used to materialize values, the
kind character (117 u unsigned, 105 i signed, 102 f float) and the element
width in bytes. -/
structure Dtype where
  littleEndian : Bool
  kind : Nat
  itemsize : Nat
deriving DecidableEq, Repr

/-- Widths numpy accepts for each kind character. -/
def descrWidthOk (kind w : Nat) : Bool :=
  if kind = 117 ∨ kind = 105 then w = 1 ∨ w = 2 ∨ w = 4 ∨ w = 8
  else if kind = 102 then w = 2 ∨ w = 4 ∨ w = 8
  else false

/-- np.dtype on a descriptor string: an optional byte-order character
(60 little, 62 big, 61 native, 124 not-applicable; native and
not-applicable are materialized little-endian), a kind character and a
width.  Descriptor spellings outside this subset (named types, structured
types, ...) are mapped to the unsupported-descriptor failure. -/
def parseDescr (cs : List Nat) : Option Dtype :=
  let (ord, rest) :=
    match cs with
    | c :: r => if c = 60 ∨ c = 62 ∨ c = 61 ∨ c = 124 then (c, r) else (61, cs)
    | [] => (61, ([] : List Nat))
  match rest with
  | [] => Option.none
  | k :: ds =>
    if (k = 117 ∨ k = 105 ∨ k = 102) ∧ ds ≠ [] ∧ ds.all isDigit then
      let w := digitsToNat ds
      if descrWidthOk k w then Option.some ⟨ord ≠ 62, k, w⟩ else Option.none
    else Option.none

/-- Fuel-driven worker for `chunkElems`; any fuel of at least the list length
gives the chunking. -/
def chunkGo (w : Nat) : Nat → List Nat → List (List Nat)
  | 0, _ => []
  | Nat.succ fuel, l =>
    if w = 0 ∨ l.length < w then []
    else l.take w :: chunkGo w fuel (l.drop w)

/-- Cut a byte list into consecutive whole chunks of `w` bytes; a trailing
fragment shorter than `w` is dropped, as np.fromfile drops it. -/
def chunkElems (w : Nat) (l : List Nat) : List (List Nat) :=
  chunkGo w l.length l

/-- The integer value of one element: little- or big-endian byte value for
unsigned kinds, two's complement for signed kinds, and the raw bit pattern
for float kinds. -/
def elemValue (d : Dtype) (chunk : List Nat) : Int :=
  let raw := if d.littleEndian then leNat chunk else leNat chunk.reverse
  if d.kind = 105 then
    if 2 ^ (8 * d.itemsize - 1) ≤ raw then
      (raw : Int) - 2 ^ (8 * d.itemsize)
    else (raw : Int)
  else (raw : Int)

/-- Dimension list of a shape argument as numpy reshape accepts it: a bare
non-negative integer or boolean, or a tuple/list of these.  numpy's inference
for a -1 dimension is not modelled; negative entries are rejected here. -/
def dimsOf : List PyLit → Option (List Nat)
  | [] => Option.some []
  | PyLit.int n :: r =>
    if n < 0 then Option.none else (dimsOf r).map (n.toNat :: ·)
  | PyLit.bool b :: r => (dimsOf r).map ((if b then 1 else 0) :: ·)
  | _ => Option.none

/-- Shape argument of reshape. -/
def shapeDims : PyLit → Option (List Nat)
  | PyLit.int n => if n < 0 then Option.none else Option.some [n.toNat]
  | PyLit.bool b => Option.some [if b then 1 else 0]
  | PyLit.tuple xs => dimsOf xs
  | PyLit.list xs => dimsOf xs
  | _ => Option.none

/-! ## The decoder (load_npy_manual) -/

/-- The failure modes of the decode pipeline, named after the specification's
error taxonomy.  `malformedHeader` models the IndexError raised when the
6-byte prefix cannot be read in full; `malformedMetadata` the
SyntaxError/KeyError/TypeError family raised by literal parsing, field lookup,
a descriptor of a kind np.dtype rejects (an integer or boolean) and a
wrong-kind shape; `unsupportedDescriptor` the TypeError raised by np.dtype on
an unrecognised descriptor string; `truncatedPayload` the ValueError raised by
reshape when the number of whole elements read differs from the product of
the dimensions (the same ValueError also fires when whole extra elements are
present).  `unmodelledDescriptor` is not a program failure but an abstention
marker: tuple, list and dictionary descriptor literals can denote structured
or subarray dtypes that numpy may accept or reject, and this model does not
determine the program's behaviour on them; no theorem reads this constructor
as a failure of the program. -/
inductive DecodeError where
  | malformedHeader
  | malformedMetadata
  | unsupportedDescriptor
  | truncatedPayload
  | unmodelledDescriptor
deriving DecidableEq, Repr

/-- The decoder's result: element type, shape, and the flat row-major element
buffer. -/
structure DecodedArray where
  dtype : Dtype
  shape : List Nat
  data : List Int
deriving DecidableEq, Repr

/-- Byte 5 of the stream (index 4): the major version. -/
def version_major (s : List Nat) : Nat := s.getD 4 0

/-- Byte 6 of the stream (index 5): the minor version; read by the code but
otherwise unused. -/
def version_minor (s : List Nat) : Nat := s.getD 5 0

/-- Width of the metadata-length field: 2 bytes when the major version is 1,
4 bytes otherwise. -/
def lengthFieldWidth (vm : Nat) : Nat := if vm = 1 then 2 else 4

/-- The metadata length, read as an unsigned little-endian integer from the
bytes immediately after the 6-byte prefix. -/
def header_len (s : List Nat) : Nat :=
  leNat ((s.drop 6).take (lengthFieldWidth (version_major s)))

/-- Offset at which the metadata text begins. -/
def header_start (vm : Nat) : Nat := 6 + lengthFieldWidth vm

/-- End of the metadata block: prefix, length field and dictionary bytes. -/
def total_header_size (vm hl : Nat) : Nat := header_start vm + hl

/-- Start of the payload: the end of the metadata block rounded up to the
next multiple of 64, exactly as computed in the source. -/
def data_start (vm hl : Nat) : Nat := ((total_header_size vm hl + 63) / 64) * 64

/-- The raw metadata bytes: header_len bytes starting right after the length
field (fewer if the stream ends early, as a short read yields fewer bytes). -/
def header_bytes (s : List Nat) : List Nat :=
  (s.drop (header_start (version_major s))).take (header_len s)

/-- Dictionary-text selection: the slice from the first 123 (the opening
brace) to the last 125 (the closing brace) inclusive when both occur; with
either absent, the whole text stripped of surrounding null bytes and then of
whitespace. -/
def extractDict (hb : List Nat) : List Nat :=
  match pyFind 123 hb, pyRfind 125 hb with
  | Option.some i, Option.some j => (hb.drop i).take (j + 1 - i)
  | _, _ => pyStrip isStripSpace (pyStrip (fun c => c = 0) hb)

/-- The structural dictionary text handed to the literal reader. -/
def headerText (s : List Nat) : List Nat := extractDict (header_bytes s)

/-- The payload: every byte from the computed payload offset to the end of
the stream. -/
def payloadOf (s : List Nat) : List Nat :=
  s.drop (data_start (version_major s) (header_len s))

/-- np.dtype(None) is the default double-precision float: native byte order,
kind f (102), 8 bytes. -/
def float64 : Dtype := ⟨true, 102, 8⟩

/-- The tail of the decoder once the element type is determined: the shape
lookup, element materialization from the payload bytes, and the reshape size
check. -/
def finishDecode (header_dict : PyLit) (dt : Dtype) (payload : List Nat) :
    Except DecodeError DecodedArray :=
  match pySubscript header_dict shapeKey with
  | Option.none => Except.error DecodeError.malformedMetadata
  | Option.some shapeLit =>
    match shapeDims shapeLit with
    | Option.none => Except.error DecodeError.malformedMetadata
    | Option.some dims =>
      let elems := (chunkElems dt.itemsize payload).map (elemValue dt)
      if elems.length = dims.prod then
        Except.ok ⟨dt, dims, elems⟩
      else Except.error DecodeError.truncatedPayload

/-- The decoder, stage for stage the source routine: prefix and version,
version-dependent length field, metadata extraction and literal parsing,
descriptor interpretation (np.dtype accepts a descriptor string or None,
rejects integers and booleans with a TypeError, and may accept tuple, list
or dictionary specs as structured or subarray dtypes — the latter are marked
unmodelled rather than given an outcome), 64-byte-aligned payload offset,
element materialization and the reshape size check. -/
def decode (s : List Nat) : Except DecodeError DecodedArray :=
  if s.length < 6 then Except.error DecodeError.malformedHeader
  else
    match parseLit (headerText s) with
    | Option.none => Except.error DecodeError.malformedMetadata
    | Option.some header_dict =>
      match pySubscript header_dict descrKey with
      | Option.none => Except.error DecodeError.malformedMetadata
      | Option.some descrLit =>
        match descrLit with
        | PyLit.str dcs =>
          match parseDescr dcs with
          | Option.none => Except.error DecodeError.unsupportedDescriptor
          | Option.some dt => finishDecode header_dict dt (payloadOf s)
        | PyLit.pynone => finishDecode header_dict float64 (payloadOf s)
        | PyLit.int _ => Except.error DecodeError.malformedMetadata
        | PyLit.bool _ => Except.error DecodeError.malformedMetadata
        | PyLit.tuple _ => Except.error DecodeError.unmodelledDescriptor
        | PyLit.list _ => Except.error DecodeError.unmodelledDescriptor
        | PyLit.dict _ => Except.error DecodeError.unmodelledDescriptor

/-- Equality of decode results is decidable; the concrete claims are settled
by evaluation through this instance. -/
instance instDecEqExceptDecode : DecidableEq (Except DecodeError DecodedArray)
  | Except.ok a, Except.ok b =>
    if h : a = b then Decidable.isTrue (by rw [h])
    else Decidable.isFalse (fun hh => h (Except.ok.inj hh))
  | Except.error a, Except.error b =>
    if h : a = b then Decidable.isTrue (by rw [h])
    else Decidable.isFalse (fun hh => h (Except.error.inj hh))
  | Except.ok _, Except.error _ => Decidable.isFalse (fun hh => Except.noConfusion hh)
  | Except.error _, Except.ok _ => Decidable.isFalse (fun hh => Except.noConfusion hh)

/-! ## Concrete streams used by the claims -/

/-- The specification's concrete version-1 stream: 4 signature bytes, major
version 1, minor version 0, 2-byte little-endian length field 118, the
dictionary text for descr less-than-u1, shape (2, 3), fortran_order False,
padded with spaces to 118 bytes, two alignment bytes, and the 6 payload
bytes 1..6 at the 64-byte-aligned offset 128. -/
def stream_v1 : List Nat :=
  [147, 78, 85, 77, 1, 0, 118, 0, 123, 39, 100, 101, 115, 99, 114, 39,
   58, 32, 39, 60, 117, 49, 39, 44, 32, 39, 115, 104, 97, 112, 101, 39,
   58, 32, 40, 50, 44, 32, 51, 41, 44, 32, 39, 102, 111, 114, 116, 114,
   97, 110, 95, 111, 114, 100, 101, 114, 39, 58, 32, 70, 97, 108, 115, 101,
   125, 32, 32, 32, 32, 32, 32, 32, 32, 32, 32, 32, 32, 32, 32, 32,
   32, 32, 32, 32, 32, 32, 32, 32, 32, 32, 32, 32, 32, 32, 32, 32,
   32, 32, 32, 32, 32, 32, 32, 32, 32, 32, 32, 32, 32, 32, 32, 32,
   32, 32, 32, 32, 32, 32, 32, 32, 32, 32, 32, 32, 32, 32, 32, 32,
   1, 2, 3, 4, 5, 6]

/-- The same logical content as a version-2 stream: major version 2, 4-byte
little-endian length field 118, identical dictionary text, payload at the
64-byte-aligned offset 128 (10 + 118 = 128 needs no extra padding). -/
def stream_v2 : List Nat :=
  [147, 78, 85, 77, 2, 0, 118, 0, 0, 0, 123, 39, 100, 101, 115, 99,
   114, 39, 58, 32, 39, 60, 117, 49, 39, 44, 32, 39, 115, 104, 97, 112,
   101, 39, 58, 32, 40, 50, 44, 32, 51, 41, 44, 32, 39, 102, 111, 114,
   116, 114, 97, 110, 95, 111, 114, 100, 101, 114, 39, 58, 32, 70, 97, 108,
   115, 101, 125, 32, 32, 32, 32, 32, 32, 32, 32, 32, 32, 32, 32, 32,
   32, 32, 32, 32, 32, 32, 32, 32, 32, 32, 32, 32, 32, 32, 32, 32,
   32, 32, 32, 32, 32, 32, 32, 32, 32, 32, 32, 32, 32, 32, 32, 32,
   32, 32, 32, 32, 32, 32, 32, 32, 32, 32, 32, 32, 32, 32, 32, 32,
   1, 2, 3, 4, 5, 6]

/-- stream_v1 cut off after 4 payload bytes (the spec's truncation example). -/
def stream_trunc : List Nat :=
  [147, 78, 85, 77, 1, 0, 118, 0, 123, 39, 100, 101, 115, 99, 114, 39,
   58, 32, 39, 60, 117, 49, 39, 44, 32, 39, 115, 104, 97, 112, 101, 39,
   58, 32, 40, 50, 44, 32, 51, 41, 44, 32, 39, 102, 111, 114, 116, 114,
   97, 110, 95, 111, 114, 100, 101, 114, 39, 58, 32, 70, 97, 108, 115, 101,
   125, 32, 32, 32, 32, 32, 32, 32, 32, 32, 32, 32, 32, 32, 32, 32,
   32, 32, 32, 32, 32, 32, 32, 32, 32, 32, 32, 32, 32, 32, 32, 32,
   32, 32, 32, 32, 32, 32, 32, 32, 32, 32, 32, 32, 32, 32, 32, 32,
   32, 32, 32, 32, 32, 32, 32, 32, 32, 32, 32, 32, 32, 32, 32, 32,
   1, 2, 3, 4]

/-- stream_v1 with each of its first 4 bytes altered. -/
def stream_badmagic : List Nat :=
  [0, 88, 88, 88, 1, 0, 118, 0, 123, 39, 100, 101, 115, 99, 114, 39,
   58, 32, 39, 60, 117, 49, 39, 44, 32, 39, 115, 104, 97, 112, 101, 39,
   58, 32, 40, 50, 44, 32, 51, 41, 44, 32, 39, 102, 111, 114, 116, 114,
   97, 110, 95, 111, 114, 100, 101, 114, 39, 58, 32, 70, 97, 108, 115, 101,
   125, 32, 32, 32, 32, 32, 32, 32, 32, 32, 32, 32, 32, 32, 32, 32,
   32, 32, 32, 32, 32, 32, 32, 32, 32, 32, 32, 32, 32, 32, 32, 32,
   32, 32, 32, 32, 32, 32, 32, 32, 32, 32, 32, 32, 32, 32, 32, 32,
   32, 32, 32, 32, 32, 32, 32, 32, 32, 32, 32, 32, 32, 32, 32, 32,
   1, 2, 3, 4, 5, 6]

/-- A well-formed stream whose dictionary omits fortran_order. -/
def stream_noFortran : List Nat :=
  [147, 78, 85, 77, 1, 0, 118, 0, 123, 39, 100, 101, 115, 99, 114, 39,
   58, 32, 39, 60, 117, 49, 39, 44, 32, 39, 115, 104, 97, 112, 101, 39,
   58, 32, 40, 50, 44, 32, 51, 41, 125, 32, 32, 32, 32, 32, 32, 32,
   32, 32, 32, 32, 32, 32, 32, 32, 32, 32, 32, 32, 32, 32, 32, 32,
   32, 32, 32, 32, 32, 32, 32, 32, 32, 32, 32, 32, 32, 32, 32, 32,
   32, 32, 32, 32, 32, 32, 32, 32, 32, 32, 32, 32, 32, 32, 32, 32,
   32, 32, 32, 32, 32, 32, 32, 32, 32, 32, 32, 32, 32, 32, 32, 32,
   32, 32, 32, 32, 32, 32, 32, 32, 32, 32, 32, 32, 32, 32, 32, 32,
   1, 2, 3, 4, 5, 6]

/-- stream_v1 with fortran_order set to True instead of False. -/
def stream_fortranTrue : List Nat :=
  [147, 78, 85, 77, 1, 0, 118, 0, 123, 39, 100, 101, 115, 99, 114, 39,
   58, 32, 39, 60, 117, 49, 39, 44, 32, 39, 115, 104, 97, 112, 101, 39,
   58, 32, 40, 50, 44, 32, 51, 41, 44, 32, 39, 102, 111, 114, 116, 114,
   97, 110, 95, 111, 114, 100, 101, 114, 39, 58, 32, 84, 114, 117, 101, 125,
   32, 32, 32, 32, 32, 32, 32, 32, 32, 32, 32, 32, 32, 32, 32, 32,
   32, 32, 32, 32, 32, 32, 32, 32, 32, 32, 32, 32, 32, 32, 32, 32,
   32, 32, 32, 32, 32, 32, 32, 32, 32, 32, 32, 32, 32, 32, 32, 32,
   32, 32, 32, 32, 32, 32, 32, 32, 32, 32, 32, 32, 32, 32, 32, 32,
   1, 2, 3, 4, 5, 6]

/-- A stream with descriptor less-than-u2 and shape (2,): 4 payload bytes
are needed; here 5 are present, so one trailing byte remains after the two
whole elements. -/
def stream_u2_trail1 : List Nat :=
  [147, 78, 85, 77, 1, 0, 118, 0, 123, 39, 100, 101, 115, 99, 114, 39,
   58, 32, 39, 60, 117, 50, 39, 44, 32, 39, 115, 104, 97, 112, 101, 39,
   58, 32, 40, 50, 44, 41, 44, 32, 39, 102, 111, 114, 116, 114, 97, 110,
   95, 111, 114, 100, 101, 114, 39, 58, 32, 70, 97, 108, 115, 101, 125, 32,
   32, 32, 32, 32, 32, 32, 32, 32, 32, 32, 32, 32, 32, 32, 32, 32,
   32, 32, 32, 32, 32, 32, 32, 32, 32, 32, 32, 32, 32, 32, 32, 32,
   32, 32, 32, 32, 32, 32, 32, 32, 32, 32, 32, 32, 32, 32, 32, 32,
   32, 32, 32, 32, 32, 32, 32, 32, 32, 32, 32, 32, 32, 32, 32, 32,
   1, 0, 2, 0, 99]

/-- As stream_u2_trail1 but with 6 payload bytes: one whole extra element
beyond the 2 the shape declares. -/
def stream_u2_trail2 : List Nat :=
  [147, 78, 85, 77, 1, 0, 118, 0, 123, 39, 100, 101, 115, 99, 114, 39,
   58, 32, 39, 60, 117, 50, 39, 44, 32, 39, 115, 104, 97, 112, 101, 39,
   58, 32, 40, 50, 44, 41, 44, 32, 39, 102, 111, 114, 116, 114, 97, 110,
   95, 111, 114, 100, 101, 114, 39, 58, 32, 70, 97, 108, 115, 101, 125, 32,
   32, 32, 32, 32, 32, 32, 32, 32, 32, 32, 32, 32, 32, 32, 32, 32,
   32, 32, 32, 32, 32, 32, 32, 32, 32, 32, 32, 32, 32, 32, 32, 32,
   32, 32, 32, 32, 32, 32, 32, 32, 32, 32, 32, 32, 32, 32, 32, 32,
   32, 32, 32, 32, 32, 32, 32, 32, 32, 32, 32, 32, 32, 32, 32, 32,
   1, 0, 2, 0, 99, 0]

set_option maxRecDepth 10000

/-! ## Helper lemmas -/

/-- With enough fuel, the number of whole chunks is the floor quotient of the
byte count by the chunk width. -/
theorem chunkGo_length (w : Nat) (hw : 0 < w) :
    ∀ fuel l, List.length l ≤ fuel →
      (chunkGo w fuel l).length = l.length / w
  | 0, l, h => by
    have h0 : l.length = 0 := Nat.le_zero.mp h
    simp [chunkGo, h0]
  | Nat.succ fuel, l, h => by
    rw [chunkGo]
    by_cases hc : l.length < w
    · rw [if_pos (Or.inr hc)]
      simp [Nat.div_eq_of_lt hc]
    · rw [if_neg (by omega)]
      have ih := chunkGo_length w hw fuel (l.drop w)
        (by simp only [List.length_drop]; omega)
      simp only [List.length_cons, ih, List.length_drop]
      rw [Nat.div_eq_sub_div hw (Nat.le_of_not_lt hc)]

/-- The number of whole elements cut from a byte list. -/
theorem chunkElems_length (w : Nat) (hw : 0 < w) (l : List Nat) :
    (chunkElems w l).length = l.length / w :=
  chunkGo_length w hw l.length l (Nat.le_refl _)

/-- Accepted widths are positive. -/
theorem descrWidthOk_pos {k w : Nat} (h : descrWidthOk k w = true) : 0 < w := by
  unfold descrWidthOk at h
  split at h
  · simp at h; omega
  · split at h
    · simp at h; omega
    · simp at h

/-- Every descriptor np.dtype accepts has a positive element width. -/
theorem parseDescr_itemsize_pos {cs : List Nat} {dt : Dtype}
    (h : parseDescr cs = Option.some dt) : 0 < dt.itemsize := by
  unfold parseDescr at h
  split at h
  split at h
  · simp at h
  · split at h
    · dsimp only at h
      split at h
      · rename_i hwid
        cases h
        exact descrWidthOk_pos hwid
      · simp at h
    · simp at h

/-- getD after a drop reads at the shifted index. -/
theorem list_getD_drop (s : List Nat) (n m : Nat) :
    (s.drop n).getD m 0 = s.getD (n + m) 0 := by
  induction s generalizing n with
  | nil => simp
  | cons a t ih =>
    cases n with
    | zero => simp
    | succ k =>
      simp only [List.drop_succ_cons]
      rw [ih k]
      simp [Nat.succ_add]

/-- Little-endian value of the first two bytes. -/
theorem leNat_take_two (t : List Nat) :
    leNat (t.take 2) = t.getD 0 0 + 256 * t.getD 1 0 := by
  match t with
  | [] => simp [leNat]
  | [a] => simp [leNat]
  | a :: b :: r => simp [leNat]

/-- Little-endian value of the first four bytes. -/
theorem leNat_take_four (t : List Nat) :
    leNat (t.take 4) =
      t.getD 0 0 + 256 * t.getD 1 0 + 65536 * t.getD 2 0 +
        16777216 * t.getD 3 0 := by
  match t with
  | [] => simp [leNat]
  | [a] => simp [leNat]
  | [a, b] => simp [leNat]
  | [a, b, c] => simp [leNat]; ring
  | a :: b :: c :: d :: r => simp [leNat]; ring

/-! ## Claims -/

/-- C2: the specification's concrete version-1 stream — 4 signature bytes and
version bytes 1 and 0, a 2-byte little-endian length field holding 118, the
dictionary text for descr less-than-u1, shape (2, 3) and fortran_order False
padded to 118 bytes, and the 6 payload bytes 1..6 at the 64-byte-aligned
offset — decodes successfully to a little-endian unsigned 8-bit array of
shape (2, 3) whose row-major elements are 1, 2, 3, 4, 5, 6 (that is, the
rows 1 2 3 and 4 5 6). -/
theorem decode_concrete_v1 :
    decode stream_v1 =
      Except.ok ⟨⟨true, 117, 1⟩, [2, 3], [1, 2, 3, 4, 5, 6]⟩ := by decide

/-- C4: for any major-version byte and metadata length, the computed payload
offset is a multiple of 64, is at least the end of the metadata block
(6 bytes of prefix plus the length-field width plus the metadata length),
and is the least multiple of 64 with that property — so when the block end
is itself a multiple of 64 the offset equals it. -/
theorem data_start_aligned (vm hl : Nat) :
    64 ∣ data_start vm hl ∧
    total_header_size vm hl ≤ data_start vm hl ∧
    ∀ m : Nat, 64 ∣ m → total_header_size vm hl ≤ m → data_start vm hl ≤ m := by
  refine ⟨⟨(total_header_size vm hl + 63) / 64, by unfold data_start; ring⟩, ?_, ?_⟩
  · have h := Nat.div_add_mod (total_header_size vm hl + 63) 64
    have hm : (total_header_size vm hl + 63) % 64 < 64 :=
      Nat.mod_lt _ (by omega)
    unfold data_start
    omega
  · intro m hdvd hle
    obtain ⟨k, rfl⟩ := hdvd
    unfold data_start
    have hq : (total_header_size vm hl + 63) / 64 ≤ k := by
      have hd := Nat.div_le_div_right (c := 64)
        (show total_header_size vm hl + 63 ≤ 64 * k + 63 by omega)
      have he : (64 * k + 63) / 64 = k := by omega
      omega
    omega

/-- C4 witness: at major version 1 and metadata length 118 the offset is 128,
a multiple of 64, at least 126, and least among multiples of 64 above 126. -/
theorem data_start_aligned_witness :
    64 ∣ data_start 1 118 ∧ total_header_size 1 118 ≤ data_start 1 118 ∧
      (64 ∣ 128 → total_header_size 1 118 ≤ 128 → data_start 1 118 ≤ 128) :=
  ⟨(data_start_aligned 1 118).1, (data_start_aligned 1 118).2.1,
    (data_start_aligned 1 118).2.2 128⟩

/-- C5: the metadata length is the unsigned little-endian value of the bytes
immediately after the 6-byte prefix, two of them when the major-version byte
is 1 and four of them for any other major version (absent bytes past the end
of the stream contribute zero, matching a short read). -/
theorem header_len_le_width (s : List Nat) :
    (version_major s = 1 →
      header_len s = s.getD 6 0 + 256 * s.getD 7 0) ∧
    (version_major s ≠ 1 →
      header_len s = s.getD 6 0 + 256 * s.getD 7 0 + 65536 * s.getD 8 0 +
        16777216 * s.getD 9 0) := by
  constructor <;> intro hv
  · unfold header_len lengthFieldWidth
    rw [hv, if_pos rfl, leNat_take_two, list_getD_drop, list_getD_drop]
  · unfold header_len lengthFieldWidth
    rw [if_neg hv, leNat_take_four, list_getD_drop, list_getD_drop,
      list_getD_drop, list_getD_drop]

/-- C5 witness: the concrete version-1 stream has major version 1 and its
length field reads 118 from bytes 6 and 7. -/
theorem header_len_le_width_witness :
    version_major stream_v1 = 1 ∧
      header_len stream_v1 =
        stream_v1.getD 6 0 + 256 * stream_v1.getD 7 0 :=
  ⟨by decide, (header_len_le_width stream_v1).1 (by decide)⟩

/-- Unfolding of decode once the metadata pipeline has produced a dictionary,
a recognised descriptor and a dimension list: the result depends only on the
reshape size check over the whole elements cut from the payload. -/
theorem decode_pipeline (s : List Nat) (d : PyLit) (dcs : List Nat) (dt : Dtype)
    (sh : PyLit) (dims : List Nat)
    (h6 : 6 ≤ s.length)
    (hd : parseLit (headerText s) = Option.some d)
    (hdescr : pySubscript d descrKey = Option.some (PyLit.str dcs))
    (hdt : parseDescr dcs = Option.some dt)
    (hsh : pySubscript d shapeKey = Option.some sh)
    (hdims : shapeDims sh = Option.some dims) :
    decode s =
      if ((chunkElems dt.itemsize (payloadOf s)).map (elemValue dt)).length
          = dims.prod
      then Except.ok
        ⟨dt, dims, (chunkElems dt.itemsize (payloadOf s)).map (elemValue dt)⟩
      else Except.error DecodeError.truncatedPayload := by
  unfold decode
  rw [if_neg (by omega)]
  rw [hd]
  simp only [hdescr, hdt]
  unfold finishDecode
  simp only [hsh, hdims]

/-- The parsed metadata dictionary of the version-1 concrete streams:
descr less-than-u1, shape (2, 3), fortran_order False. -/
def dictV1 : PyLit :=
  PyLit.dict
    [(PyLit.str descrKey, PyLit.str [60, 117, 49]),
     (PyLit.str shapeKey, PyLit.tuple [PyLit.int 2, PyLit.int 3]),
     (PyLit.str [102, 111, 114, 116, 114, 97, 110, 95, 111, 114, 100, 101, 114],
      PyLit.bool false)]

/-- The parsed metadata dictionary of the less-than-u2 streams:
descr less-than-u2, shape (2,), fortran_order False. -/
def dictU2 : PyLit :=
  PyLit.dict
    [(PyLit.str descrKey, PyLit.str [60, 117, 50]),
     (PyLit.str shapeKey, PyLit.tuple [PyLit.int 2]),
     (PyLit.str [102, 111, 114, 116, 114, 97, 110, 95, 111, 114, 100, 101, 114],
      PyLit.bool false)]

/-- C3: on any stream whose metadata pipeline yields a descriptor and a
dimension list but whose available payload bytes (from the computed offset to
the end of the stream) are fewer than the shape product times the element
width, decode fails with truncatedPayload and returns no array.  When the
computed offset lies beyond the end of the stream the available count is
zero, which is an instance of the same hypothesis. -/
theorem truncated_payload_fails (s : List Nat) (d : PyLit) (dcs : List Nat)
    (dt : Dtype) (sh : PyLit) (dims : List Nat)
    (h6 : 6 ≤ s.length)
    (hd : parseLit (headerText s) = Option.some d)
    (hdescr : pySubscript d descrKey = Option.some (PyLit.str dcs))
    (hdt : parseDescr dcs = Option.some dt)
    (hsh : pySubscript d shapeKey = Option.some sh)
    (hdims : shapeDims sh = Option.some dims)
    (hlt : (payloadOf s).length < dims.prod * dt.itemsize) :
    decode s = Except.error DecodeError.truncatedPayload := by
  have hw := parseDescr_itemsize_pos hdt
  rw [decode_pipeline s d dcs dt sh dims h6 hd hdescr hdt hsh hdims]
  rw [if_neg]
  rw [List.length_map, chunkElems_length dt.itemsize hw]
  exact Nat.ne_of_lt ((Nat.div_lt_iff_lt_mul hw).2 hlt)

/-- C3 witness: the concrete stream cut to 4 payload bytes satisfies the
hypotheses (4 is fewer than the 6 bytes shape (2, 3) requires at width 1) and
decode fails with truncatedPayload. -/
theorem truncated_payload_fails_witness :
    (payloadOf stream_trunc).length < ([2, 3] : List Nat).prod * 1 ∧
    decode stream_trunc = Except.error DecodeError.truncatedPayload :=
  ⟨by decide,
   truncated_payload_fails stream_trunc dictV1 [60, 117, 49] ⟨true, 117, 1⟩
     (PyLit.tuple [PyLit.int 2, PyLit.int 3]) [2, 3]
     (by decide) (by rfl) (by rfl) (by rfl) (by rfl) (by rfl) (by decide)⟩

/-- C10 counterexample: a stream with descriptor less-than-u2 and shape (2,)
whose remaining byte count from the payload offset is 5 — not the declared
2 times 2 = 4 — still decodes successfully; the single trailing byte is
silently dropped, contradicting the claim that any remaining count other
than shape times width makes decode fail. -/
theorem trailing_fragment_accepted :
    (payloadOf stream_u2_trail1).length = 5 ∧
    decode stream_u2_trail1 =
      Except.ok ⟨⟨true, 117, 2⟩, [2], [1, 2]⟩ := by decide

/-- C10 as amended: decode consumes every byte from the computed payload
offset, and with the pipeline hypotheses it fails with truncatedPayload
exactly when the number of whole elements among those bytes — the remaining
byte count divided (flooring) by the element width — differs from the shape
product; on equality it succeeds with exactly those whole elements, so whole
trailing elements cause failure while a trailing fragment shorter than one
element is dropped silently. -/
theorem payload_size_check (s : List Nat) (d : PyLit) (dcs : List Nat)
    (dt : Dtype) (sh : PyLit) (dims : List Nat)
    (h6 : 6 ≤ s.length)
    (hd : parseLit (headerText s) = Option.some d)
    (hdescr : pySubscript d descrKey = Option.some (PyLit.str dcs))
    (hdt : parseDescr dcs = Option.some dt)
    (hsh : pySubscript d shapeKey = Option.some sh)
    (hdims : shapeDims sh = Option.some dims) :
    (decode s = Except.error DecodeError.truncatedPayload ↔
      (payloadOf s).length / dt.itemsize ≠ dims.prod) ∧
    ((payloadOf s).length / dt.itemsize = dims.prod →
      decode s = Except.ok
        ⟨dt, dims,
          (chunkElems dt.itemsize (payloadOf s)).map (elemValue dt)⟩) := by
  have hw := parseDescr_itemsize_pos hdt
  have hstep := decode_pipeline s d dcs dt sh dims h6 hd hdescr hdt hsh hdims
  simp only [List.length_map, chunkElems_length dt.itemsize hw] at hstep
  rw [hstep]
  by_cases hc : (payloadOf s).length / dt.itemsize = dims.prod
  · simp [hc]
  · simp [hc]

/-- C10 witness: with 6 remaining bytes at width 2 the whole-element count is
3, not the declared 2, and decode fails with truncatedPayload. -/
theorem payload_size_check_witness :
    decode stream_u2_trail2 = Except.error DecodeError.truncatedPayload :=
  ((payload_size_check stream_u2_trail2 dictU2 [60, 117, 50] ⟨true, 117, 2⟩
      (PyLit.tuple [PyLit.int 2]) [2]
      (by decide) (by rfl) (by rfl) (by rfl) (by rfl) (by rfl)).1).mpr
    (by decide)

/-- The payload offset is always at least 64 (used to show the first four
stream bytes can never reach the payload). -/
theorem data_start_ge (vm hl : Nat) : 64 ≤ data_start vm hl := by
  unfold data_start
  have h8 : 8 ≤ total_header_size vm hl := by
    unfold total_header_size header_start lengthFieldWidth
    split <;> omega
  have h1 : 1 ≤ (total_header_size vm hl + 63) / 64 :=
    (Nat.one_le_div_iff (by omega)).2 (by omega)
  omega

/-- C1 counterexample: altering all four signature bytes of the otherwise
valid concrete stream does not make decode fail — it still succeeds, with the
same result, so a magic mismatch never yields malformedHeader. -/
theorem altered_magic_accepted :
    decode stream_badmagic =
      Except.ok ⟨⟨true, 117, 1⟩, [2, 3], [1, 2, 3, 4, 5, 6]⟩ := by decide

/-- The decoder tail never reports the header failure: past the 6-byte
prefix check every outcome is metadata-, descriptor- or payload-related. -/
theorem finishDecode_ne_malformedHeader (d : PyLit) (dt : Dtype) (p : List Nat) :
    finishDecode d dt p ≠ Except.error DecodeError.malformedHeader := by
  unfold finishDecode
  split
  · simp
  · split
    · simp
    · dsimp only
      split
      · simp
      · simp

/-- C1 as amended: decode never inspects the first four bytes — replacing
them by any other four bytes leaves the result unchanged, so altering them in
an otherwise valid stream still decodes successfully — and malformedHeader
occurs exactly for the streams shorter than the 6-byte prefix: such a stream
always fails that way, and no longer stream ever yields malformedHeader. -/
theorem magic_bytes_ignored (p q s : List Nat)
    (hp : p.length = 4) (hq : q.length = 4) :
    decode (p ++ s) = decode (q ++ s) ∧
    (∀ t : List Nat,
      decode t = Except.error DecodeError.malformedHeader ↔ t.length < 6) := by
  constructor
  · have hdrop : ∀ n, 4 ≤ n → (p ++ s).drop n = (q ++ s).drop n := by
      intro n hn
      have h1 : (p ++ s).drop n = s.drop (n - 4) := by
        conv_lhs => rw [show n = p.length + (n - 4) by omega]
        exact List.drop_append _
      have h2 : (q ++ s).drop n = s.drop (n - 4) := by
        conv_lhs => rw [show n = q.length + (n - 4) by omega]
        exact List.drop_append _
      rw [h1, h2]
    have hvm : version_major (p ++ s) = version_major (q ++ s) := by
      unfold version_major
      rw [List.getD_append_right p s 0 4 (by omega),
        List.getD_append_right q s 0 4 (by omega), hp, hq]
    have hlen : header_len (p ++ s) = header_len (q ++ s) := by
      unfold header_len
      rw [hvm, hdrop 6 (by omega)]
    have hhb : header_bytes (p ++ s) = header_bytes (q ++ s) := by
      unfold header_bytes
      rw [hvm, hlen, hdrop (header_start (version_major (q ++ s)))
        (by unfold header_start lengthFieldWidth; split <;> omega)]
    have hht : headerText (p ++ s) = headerText (q ++ s) := by
      unfold headerText
      rw [hhb]
    have hpay : payloadOf (p ++ s) = payloadOf (q ++ s) := by
      unfold payloadOf
      rw [hvm, hlen, hdrop (data_start (version_major (q ++ s)) (header_len (q ++ s)))
        (by have := data_start_ge (version_major (q ++ s)) (header_len (q ++ s)); omega)]
    have hlength : (p ++ s).length = (q ++ s).length := by
      simp [hp, hq]
    unfold decode
    rw [hlength, hht, hpay]
  · intro t
    constructor
    · intro hdec
      by_contra hlen
      unfold decode at hdec
      rw [if_neg hlen] at hdec
      cases hpl : parseLit (headerText t) with
      | none => simp only [hpl] at hdec; simp at hdec
      | some d =>
        simp only [hpl] at hdec
        cases hde : pySubscript d descrKey with
        | none => simp only [hde] at hdec; simp at hdec
        | some dl =>
          simp only [hde] at hdec
          cases dl with
          | str dcs =>
            dsimp only at hdec
            cases hdt : parseDescr dcs with
            | none => simp only [hdt] at hdec; simp at hdec
            | some dt =>
              simp only [hdt] at hdec
              exact finishDecode_ne_malformedHeader d dt (payloadOf t) hdec
          | pynone =>
            exact finishDecode_ne_malformedHeader d float64 (payloadOf t) hdec
          | int n => simp at hdec
          | bool b => simp at hdec
          | tuple xs => simp at hdec
          | list xs => simp at hdec
          | dict kvs => simp at hdec
    · intro ht
      unfold decode
      rw [if_pos ht]

/-- C1 witness: the altered-signature stream is the concrete valid stream
with its first four bytes replaced, and both decode identically. -/
theorem magic_bytes_ignored_witness :
    decode ([0, 88, 88, 88] ++ stream_v1.drop 4) =
      decode ([147, 78, 85, 77] ++ stream_v1.drop 4) :=
  (magic_bytes_ignored [0, 88, 88, 88] [147, 78, 85, 77] (stream_v1.drop 4)
    (by decide) (by decide)).1

/-- C6: a version-1 stream (2-byte length field, major-version byte 1) and a
version-2-or-later stream (4-byte length field) carrying identical logical
content — metadata texts parsing to the same dictionary and identical bytes
in their payload regions — decode to identical results. -/
theorem version_equivalence (s1 s2 : List Nat)
    (h1 : 6 ≤ s1.length) (h2 : 6 ≤ s2.length)
    (hv1 : version_major s1 = 1) (hv2 : version_major s2 ≠ 1)
    (hmeta : parseLit (headerText s1) = parseLit (headerText s2))
    (hpay : payloadOf s1 = payloadOf s2) :
    decode s1 = decode s2 := by
  unfold decode
  rw [if_neg (by omega), if_neg (by omega), hmeta, hpay]

/-- C6 witness: the concrete version-1 stream and the version-2 stream with
the same dictionary text and payload decode identically (and the shared
result is the successful one proved for C2). -/
theorem version_equivalence_witness :
    decode stream_v1 = decode stream_v2 :=
  version_equivalence stream_v1 stream_v2 (by decide) (by decide)
    (by decide) (by decide) (by rfl) (by rfl)

/-- The parsed metadata dictionary of the stream omitting fortran_order. -/
def dictNoFortran : PyLit :=
  PyLit.dict
    [(PyLit.str descrKey, PyLit.str [60, 117, 49]),
     (PyLit.str shapeKey, PyLit.tuple [PyLit.int 2, PyLit.int 3])]

/-- The parsed metadata dictionary with fortran_order True. -/
def dictFortranTrue : PyLit :=
  PyLit.dict
    [(PyLit.str descrKey, PyLit.str [60, 117, 49]),
     (PyLit.str shapeKey, PyLit.tuple [PyLit.int 2, PyLit.int 3]),
     (PyLit.str [102, 111, 114, 116, 114, 97, 110, 95, 111, 114, 100, 101, 114],
      PyLit.bool true)]

/-- The decoder tail reads its dictionary only through the shape key, so two
dictionaries agreeing there give the same tail result. -/
theorem finishDecode_congr (d1 d2 : PyLit) (dt : Dtype) (p : List Nat)
    (hsh : pySubscript d1 shapeKey = pySubscript d2 shapeKey) :
    finishDecode d1 dt p = finishDecode d2 dt p := by
  unfold finishDecode
  rw [hsh]

/-- C9: fortran_order is optional and never influences the output — a
well-formed stream whose dictionary omits it decodes successfully, and any
two streams whose dictionaries agree on descr and shape (the value or
presence of fortran_order being free) with equal payload regions decode to
identical results. -/
theorem fortran_order_irrelevant :
    (decode stream_noFortran =
      Except.ok ⟨⟨true, 117, 1⟩, [2, 3], [1, 2, 3, 4, 5, 6]⟩) ∧
    ∀ s1 s2 d1 d2,
      6 ≤ s1.length → 6 ≤ s2.length →
      parseLit (headerText s1) = Option.some d1 →
      parseLit (headerText s2) = Option.some d2 →
      pySubscript d1 descrKey = pySubscript d2 descrKey →
      pySubscript d1 shapeKey = pySubscript d2 shapeKey →
      payloadOf s1 = payloadOf s2 →
      decode s1 = decode s2 := by
  constructor
  · decide
  · intro s1 s2 d1 d2 h1 h2 hd1 hd2 hde hsh hpay
    unfold decode
    rw [if_neg (by omega), if_neg (by omega)]
    simp only [hd1, hd2, hde, hpay]
    cases pySubscript d2 descrKey with
    | none => rfl
    | some dl =>
      cases dl with
      | str dcs =>
        dsimp only
        cases parseDescr dcs with
        | none => rfl
        | some dt => exact finishDecode_congr d1 d2 dt (payloadOf s2) hsh
      | pynone => exact finishDecode_congr d1 d2 float64 (payloadOf s2) hsh
      | int n => rfl
      | bool b => rfl
      | tuple xs => rfl
      | list xs => rfl
      | dict kvs => rfl

/-- C9 witness: the stream with fortran_order True and the stream omitting
fortran_order agree on descr, shape and payload, so they decode identically. -/
theorem fortran_order_irrelevant_witness :
    decode stream_fortranTrue = decode stream_noFortran :=
  fortran_order_irrelevant.2 stream_fortranTrue stream_noFortran
    dictFortranTrue dictNoFortran (by decide) (by decide)
    (by rfl) (by rfl) (by rfl) (by rfl) (by rfl)

/-- The sentinel-style find agrees with membership and the standard first
index: it yields an index exactly when the character occurs. -/
theorem pyFind_eq (c : Nat) (l : List Nat) :
    pyFind c l = if c ∈ l then Option.some (l.indexOf c) else Option.none := by
  induction l with
  | nil => simp [pyFind]
  | cons a t ih =>
    by_cases hac : a = c
    · subst hac
      simp [pyFind, List.indexOf_cons_self]
    · rw [pyFind, if_neg hac, ih]
      by_cases hm : c ∈ t
      · rw [if_pos hm, if_pos (by simp [hm])]
        simp [List.indexOf_cons_ne _ hac]
      · rw [if_neg hm, if_neg (by
          simp only [List.mem_cons, not_or]
          exact ⟨fun h => hac h.symm, hm⟩)]
        simp

/-- Dictionary-text selection as the specification words it: when the text
contains both an opening brace (code 123) and a closing brace (code 125),
the slice from the index of the first opening brace to the index of the last
closing brace inclusive; with either brace absent, the whole text stripped
of surrounding null bytes and then of surrounding whitespace.  Stated with
the standard index functions, for comparison with the source-translated
extractDict. -/
def specDictText (hb : List Nat) : List Nat :=
  if 123 ∈ hb ∧ 125 ∈ hb then
    let i := hb.indexOf 123
    let j := hb.length - 1 - hb.reverse.indexOf 125
    (hb.drop i).take (j + 1 - i)
  else pyStrip isStripSpace (pyStrip (fun c => c = 0) hb)

/-- C7: for every metadata text, the structural dictionary text the decoder
hands to the literal parser is exactly the substring from the first opening
brace to the last closing brace inclusive when both are present, and
otherwise the whole text with surrounding null bytes and whitespace
stripped — the sentinel-based source computation coincides with that
specification reading. -/
theorem dict_text_selection (hb : List Nat) : extractDict hb = specDictText hb := by
  unfold extractDict pyRfind specDictText
  rw [pyFind_eq, pyFind_eq]
  by_cases h1 : 123 ∈ hb <;> by_cases h2 : 125 ∈ hb
  · rw [if_pos h1, if_pos (List.mem_reverse.2 h2), if_pos ⟨h1, h2⟩]
    simp
  · rw [if_pos h1, if_neg (by rw [List.mem_reverse]; exact h2),
      if_neg (by exact fun h => h2 h.2)]
    simp
  · rw [if_neg h1, if_pos (List.mem_reverse.2 h2),
      if_neg (by exact fun h => h1 h.1)]
  · rw [if_neg h1, if_neg (by rw [List.mem_reverse]; exact h2),
      if_neg (by exact fun h => h1 h.1)]

